import Mathlib

/-!
Verification of the geocoding pipeline of the nl-highschools-dashboard
repository: the address builder, the geocode cache, the Nominatim client,
the fallback geocoder and the batch orchestrator, shallowly embedded from
the Python sources (accurate_geocoding.py, geocode_all_schools.py,
geocode_batch.py, geocode_with_fallback.py).

Modelling conventions: a pandas cell is `Option String` (`none` is NaN, so
`pd.notna` is `Option.isSome`); Python floats are rationals; the HTTP
interaction is an oracle `net : String → NetResult`; the two draws of
`np.random.uniform(-0.002, 0.002)` are explicit parameters.
-/

/-- Whitespace characters removed by Python str.strip(). -/
def isPySpace (c : Char) : Bool :=
  c = ' ' || c = '\t' || c = '\n' || c = '\r' || c = '\x0b' || c = '\x0c'

/-- Python str.strip(): drop whitespace from both ends of the string. -/
def pyStrip (s : String) : String :=
  ⟨((s.data.dropWhile isPySpace).reverse.dropWhile isPySpace).reverse⟩

/-- A school record row: the address columns read by create_full_address plus
the coordinate columns mutated by the orchestrators. -/
structure Row where
  street : Option String
  house_no : Option String
  house_add : Option String
  postcode : Option String
  city : Option String
  latitude : Option ℚ
  longitude : Option ℚ
  deriving DecidableEq, Repr

/-- Parts list built by create_full_address in geocode_all_schools.py (the copy
in geocode_with_fallback.py is identical): street with house number and
addition appended only when, after stripping, they are neither "nan" nor
empty; then postcode, city, and the literal "Netherlands". -/
def full_address_parts (r : Row) : List String :=
  (match r.street with
   | none => []
   | some street =>
     let street_part := pyStrip street
     let street_part :=
       match r.house_no with
       | none => street_part
       | some hn =>
         let house_no := pyStrip hn
         if house_no ≠ "nan" && house_no ≠ "" then
           let street_part := street_part ++ " " ++ house_no
           match r.house_add with
           | none => street_part
           | some ha =>
             let house_add := pyStrip ha
             if house_add ≠ "nan" && house_add ≠ "" then street_part ++ house_add
             else street_part
         else street_part
     [street_part]) ++
  (match r.postcode with
   | none => []
   | some p => [pyStrip p]) ++
  (match r.city with
   | none => []
   | some c => [pyStrip c]) ++
  ["Netherlands"]

/-- create_full_address of geocode_all_schools.py / geocode_with_fallback.py:
the parts joined by ", ". -/
def create_full_address (r : Row) : String :=
  ", ".intercalate (full_address_parts r)

/-- Parts list built by create_full_address in accurate_geocoding.py (the copy
in test_accurate_geocoding.py is identical): house number and addition are
appended whenever the cell is non-null, with no "nan" or emptiness filter. -/
def full_address_parts_accurate (r : Row) : List String :=
  (match r.street with
   | none => []
   | some street =>
     let street_part := pyStrip street
     let street_part :=
       match r.house_no with
       | none => street_part
       | some hn =>
         let street_part := street_part ++ " " ++ pyStrip hn
         match r.house_add with
         | none => street_part
         | some ha => street_part ++ pyStrip ha
     [street_part]) ++
  (match r.postcode with
   | none => []
   | some p => [pyStrip p]) ++
  (match r.city with
   | none => []
   | some c => [pyStrip c]) ++
  ["Netherlands"]

/-- create_full_address of accurate_geocoding.py. -/
def create_full_address_accurate (r : Row) : String :=
  ", ".intercalate (full_address_parts_accurate r)

/-- Parts list built by create_full_address in geocode_batch.py: house number
and addition are filtered against the literal "nan" only, with no emptiness
check. -/
def full_address_parts_batch (r : Row) : List String :=
  (match r.street with
   | none => []
   | some street =>
     let street_part := pyStrip street
     let street_part :=
       match r.house_no with
       | none => street_part
       | some hn =>
         let house_no := pyStrip hn
         if house_no ≠ "nan" then
           let street_part := street_part ++ " " ++ house_no
           match r.house_add with
           | none => street_part
           | some ha =>
             let house_add := pyStrip ha
             if house_add ≠ "nan" then street_part ++ house_add
             else street_part
         else street_part
     [street_part]) ++
  (match r.postcode with
   | none => []
   | some p => [pyStrip p]) ++
  (match r.city with
   | none => []
   | some c => [pyStrip c]) ++
  ["Netherlands"]

/-- create_full_address of geocode_batch.py. -/
def create_full_address_batch (r : Row) : String :=
  ", ".intercalate (full_address_parts_batch r)

/-- A Python value stored in the geocoding cache: None (an attempted query with
no match), a (lat, lon) tuple as produced by a fresh geocode, or a [lat, lon]
list as produced by json.load when the cache file is reloaded. -/
inductive PyVal where
  | none : PyVal
  | tup : ℚ → ℚ → PyVal
  | list : ℚ → ℚ → PyVal
  deriving DecidableEq, Repr

/-- Python == on cache values: a tuple never equals a list, even with equal
elements; None equals only None. -/
def pyEq : PyVal → PyVal → Bool
  | .none, .none => true
  | .tup a b, .tup c d => a = c && b = d
  | .list a b, .list c d => a = c && b = d
  | _, _ => false

/-- Python truthiness plus subscripting of a cache value, as used by the
orchestrators (`if coords:` then `coords[0]`, `coords[1]`): None is falsy; a
two-element tuple or list is truthy and yields its coordinates. -/
def coordsOf : PyVal → Option (ℚ × ℚ)
  | .none => Option.none
  | .tup a b => some (a, b)
  | .list a b => some (a, b)

/-- The in-memory cache: a Python dict from query string to cached value,
modelled as an insertion-ordered association list. -/
abbrev Cache := List (String × PyVal)

/-- Python dict lookup, and also the membership test `address in cache` (which
is `isSome` of this). -/
def Cache.get? : Cache → String → Option PyVal
  | [], _ => Option.none
  | (k, v) :: rest, q => if k = q then some v else Cache.get? rest q

/-- Python dict assignment `cache[q] = v`: replace in place if the key exists,
append otherwise. -/
def Cache.set : Cache → String → PyVal → Cache
  | [], q, v => [(q, v)]
  | (k, w) :: rest, q, v =>
    if k = q then (k, v) :: rest else (k, w) :: Cache.set rest q v

/-- Numeric value of a digit list, most significant digit first. -/
def digitsVal (cs : List Char) : Nat :=
  cs.foldl (fun a c => a * 10 + (c.toNat - 48)) 0

/-- Unsigned decimal literal: digits with an optional fractional part after a
dot, at least one digit overall. -/
def parseDecimal? (cs : List Char) : Option ℚ :=
  let (intPart, rest) := cs.span Char.isDigit
  match rest with
  | [] => if intPart = [] then Option.none else some (digitsVal intPart : ℚ)
  | '.' :: fracPart =>
    if fracPart.all Char.isDigit && !(intPart = [] && fracPart = []) then
      some ((digitsVal intPart : ℚ) + (digitsVal fracPart : ℚ) / ((10 : ℚ) ^ fracPart.length))
    else Option.none
  | _ => Option.none

/-- Model of Python float() on the decimal-degree strings served by the
geocoding API: optional surrounding whitespace and sign, then a decimal
literal; anything else raises ValueError, modelled as `none`. -/
def pyFloat? (s : String) : Option ℚ :=
  match (pyStrip s).data with
  | '-' :: cs => (parseDecimal? cs).map Neg.neg
  | '+' :: cs => parseDecimal? cs
  | cs => parseDecimal? cs

/-- One entry of the Nominatim JSON result array: lat and lon are
decimal-degree strings. -/
structure NomResult where
  lat : String
  lon : String
  deriving DecidableEq, Repr

/-- Outcome of one HTTP interaction (requests.get followed by
response.json()): a response with its status code and result array, or a
raised exception (timeout, transport failure, malformed JSON body). -/
inductive NetResult where
  | resp : Nat → List NomResult → NetResult
  | exc : NetResult
  deriving DecidableEq, Repr

/-- Result of one geocoding call: the returned value, the cache afterwards,
and the list of query strings sent over the network, in order. -/
structure GeoOut where
  result : PyVal
  cache : Cache
  queries : List String
  deriving DecidableEq, Repr

/-- geocode_with_nominatim(address, cache), defined identically in
accurate_geocoding.py, geocode_all_schools.py, geocode_batch.py and
geocode_with_fallback.py (the copies differ only in the timeout passed to
requests.get, absorbed here into the network oracle `net`). A cached query is
answered from the cache; otherwise one request is issued and every outcome,
including a raised exception, is recorded in the cache. -/
def geocode_with_nominatim (address : String) (cache : Cache)
    (net : String → NetResult) : GeoOut :=
  match Cache.get? cache address with
  | some v => ⟨v, cache, []⟩
  | Option.none =>
    match net address with
    | .exc => ⟨.none, Cache.set cache address .none, [address]⟩
    | .resp status data =>
      if status = 200 then
        match data with
        | [] => ⟨.none, Cache.set cache address .none, [address]⟩
        | r :: _ =>
          match pyFloat? r.lat, pyFloat? r.lon with
          | some la, some lo =>
            ⟨.tup la lo, Cache.set cache address (.tup la lo), [address]⟩
          | _, _ => ⟨.none, Cache.set cache address .none, [address]⟩
      else ⟨.none, Cache.set cache address .none, [address]⟩

/-- The coarse query string built by geocode_fallback. -/
def fallback_address (postcode city : String) : String :=
  postcode ++ ", " ++ city ++ ", Netherlands"

/-- geocode_fallback(postcode, city, cache) from geocode_with_fallback.py.
j1 and j2 are the two draws of np.random.uniform(-0.002, 0.002) used to
jitter a successful lookup; the jittered pair is what is cached. -/
def geocode_fallback (postcode city : String) (cache : Cache)
    (net : String → NetResult) (j1 j2 : ℚ) : GeoOut :=
  let fa := fallback_address postcode city
  match Cache.get? cache fa with
  | some v => ⟨v, cache, []⟩
  | Option.none =>
    match net fa with
    | .exc => ⟨.none, Cache.set cache fa .none, [fa]⟩
    | .resp status data =>
      if status = 200 then
        match data with
        | [] => ⟨.none, Cache.set cache fa .none, [fa]⟩
        | r :: _ =>
          match pyFloat? r.lat, pyFloat? r.lon with
          | some la, some lo =>
            ⟨.tup (la + j1) (lo + j2),
             Cache.set cache fa (.tup (la + j1) (lo + j2)), [fa]⟩
          | _, _ => ⟨.none, Cache.set cache fa .none, [fa]⟩
      else ⟨.none, Cache.set cache fa .none, [fa]⟩

/-- Effect of one json.dump / json.load cycle on a cached value: Python tuples
and lists both serialize to JSON arrays; json.load reads an array back as a
list and null as None; floats round-trip exactly under repr-based
serialization. -/
def jsonRoundTripVal : PyVal → PyVal
  | .none => .none
  | .tup a b => .list a b
  | .list a b => .list a b

/-- Saving the cache with json.dump and reloading it with json.load, as done
between runs by main / process_failed_schools. -/
def saveLoad (c : Cache) : Cache :=
  c.map (fun kv => (kv.1, jsonRoundTripVal kv.2))

/-- Merge step of geocode_all_schools.main: a dataset row takes the
coordinates of the corresponding row of the existing output file exactly when
that row has both coordinates present. -/
def mergeRow (r e : Row) : Row :=
  if e.latitude.isSome && e.longitude.isSome then
    { r with latitude := e.latitude, longitude := e.longitude }
  else r

/-- The merge loop of geocode_all_schools.main over the existing output file,
row by row (rows of the dataset beyond the existing file are untouched). -/
def merge_existing : List Row → List Row → List Row
  | [], _ => []
  | r :: rest, [] => r :: rest
  | r :: rest, e :: es => mergeRow r e :: merge_existing rest es

/-- Per-record body of the geocoding loop of geocode_all_schools.main (the
loops of accurate_geocoding.py and geocode_batch.py are the same modulo
checkpoint cadence): a row that already has both coordinates is skipped
entirely; otherwise its full address is geocoded and, on a truthy result, the
coordinates are written back. -/
def processRow (net : String → NetResult) (r : Row) (cache : Cache) :
    Row × Cache × List String :=
  if r.latitude.isNone || r.longitude.isNone then
    let g := geocode_with_nominatim (create_full_address r) cache net
    match coordsOf g.result with
    | some (la, lo) =>
      ({ r with latitude := some la, longitude := some lo }, g.cache, g.queries)
    | Option.none => (r, g.cache, g.queries)
  else (r, cache, [])

/-- The per-record loop of geocode_all_schools.main over the whole dataset,
threading the cache and collecting the network queries issued. -/
def geocode_loop (net : String → NetResult) :
    List Row → Cache → List Row × Cache × List String
  | [], cache => ([], cache, [])
  | r :: rest, cache =>
    let p := processRow net r cache
    let rec_rest := geocode_loop net rest p.2.1
    (p.1 :: rec_rest.1, rec_rest.2.1, p.2.2 ++ rec_rest.2.2)

/-- The stripped postcode of a row as computed by process_failed_schools:
`str(row...).strip() if pd.notna(...) else ''`. -/
def rowPostcodeStr (r : Row) : String :=
  match r.postcode with | some s => pyStrip s | Option.none => ""

/-- The stripped city of a row as computed by process_failed_schools. -/
def rowCityStr (r : Row) : String :=
  match r.city with | some s => pyStrip s | Option.none => ""

/-- Per-record body of process_failed_schools in geocode_with_fallback.py:
postcode and city are stripped (empty when the cell is NaN); fallback
geocoding is attempted only when both are non-empty, and on a truthy result
the coordinates are written back. -/
def processFailedRow (net : String → NetResult) (j1 j2 : ℚ) (r : Row)
    (cache : Cache) : Row × Cache × List String :=
  let postcode := rowPostcodeStr r
  let city := rowCityStr r
  if postcode ≠ "" && city ≠ "" then
    let g := geocode_fallback postcode city cache net j1 j2
    match coordsOf g.result with
    | some (la, lo) =>
      ({ r with latitude := some la, longitude := some lo }, g.cache, g.queries)
    | Option.none => (r, g.cache, g.queries)
  else (r, cache, [])

/-- Dict lookup after dict assignment of the same key finds the new value. -/
theorem Cache.get?_set_self (c : Cache) (q : String) (v : PyVal) :
    Cache.get? (Cache.set c q v) q = some v := by
  induction c with
  | nil => simp [Cache.set, Cache.get?]
  | cons kv rest ih =>
    obtain ⟨k, w⟩ := kv
    by_cases h : k = q <;> simp [Cache.set, Cache.get?, h, ih]

/-- Lookup in a saved-and-reloaded cache is lookup in the original cache
followed by the value-level JSON round trip. -/
theorem saveLoad_get? (c : Cache) (q : String) :
    Cache.get? (saveLoad c) q = (Cache.get? c q).map jsonRoundTripVal := by
  induction c with
  | nil => simp [saveLoad, Cache.get?]
  | cons kv rest ih =>
    obtain ⟨k, w⟩ := kv
    by_cases h : k = q
    · simp [saveLoad, Cache.get?, h]
    · simp only [saveLoad, List.map_cons] at ih ⊢
      simp [Cache.get?, h]
      simpa [saveLoad] using ih

/-- A cached address is answered from the cache, unchanged, with no network
traffic. -/
theorem geocode_hit (a : String) (cache : Cache) (net : String → NetResult)
    (v : PyVal) (h : Cache.get? cache a = some v) :
    geocode_with_nominatim a cache net = ⟨v, cache, []⟩ := by
  simp [geocode_with_nominatim, h]

/-- After any call, the address is a key of the resulting cache. -/
theorem geocode_mem_after (a : String) (cache : Cache)
    (net : String → NetResult) :
    (Cache.get? (geocode_with_nominatim a cache net).cache a).isSome := by
  unfold geocode_with_nominatim
  cases hc : Cache.get? cache a with
  | some v => simp [hc]
  | none =>
    cases hn : net a with
    | exc => simp [Cache.get?_set_self]
    | resp status data =>
      by_cases hs : status = 200
      · cases data with
        | nil => simp [hs, Cache.get?_set_self]
        | cons r rest =>
          cases h1 : pyFloat? r.lat <;> cases h2 : pyFloat? r.lon <;>
            simp [hs, h1, h2, Cache.get?_set_self]
      · simp [hs, Cache.get?_set_self]

/-- A geocoding call issues either no request (cache hit) or exactly one
request, for the queried address itself; and a request is issued only on a
cache miss. -/
theorem geocode_queries (a : String) (cache : Cache)
    (net : String → NetResult) :
    ((geocode_with_nominatim a cache net).queries = [] ∧
        (Cache.get? cache a).isSome) ∨
      ((geocode_with_nominatim a cache net).queries = [a] ∧
        Cache.get? cache a = Option.none) := by
  unfold geocode_with_nominatim
  cases hc : Cache.get? cache a with
  | some v => exact Or.inl (by simp [hc])
  | none =>
    refine Or.inr ⟨?_, rfl⟩
    cases hn : net a with
    | exc => simp
    | resp status data =>
      by_cases hs : status = 200
      · cases data with
        | nil => simp [hs]
        | cons r rest =>
          cases h1 : pyFloat? r.lat <;> cases h2 : pyFloat? r.lon <;>
            simp [hs, h1, h2]
      · simp [hs]

/-- The fallback geocoder always leaves its coarse query mapped to exactly the
value it returned. -/
theorem geocode_fallback_result_cached (p c : String) (cache : Cache)
    (net : String → NetResult) (j1 j2 : ℚ) :
    Cache.get? (geocode_fallback p c cache net j1 j2).cache
        (fallback_address p c)
      = some (geocode_fallback p c cache net j1 j2).result := by
  cases hc : Cache.get? cache (fallback_address p c) with
  | some v => simp [geocode_fallback, hc]
  | none =>
    cases hn : net (fallback_address p c) with
    | exc => simp [geocode_fallback, hc, hn, Cache.get?_set_self]
    | resp status data =>
      by_cases hs : status = 200
      · cases data with
        | nil => simp [geocode_fallback, hc, hn, hs, Cache.get?_set_self]
        | cons r rest =>
          cases h1 : pyFloat? r.lat <;> cases h2 : pyFloat? r.lon <;>
            simp [geocode_fallback, hc, hn, hs, h1, h2, Cache.get?_set_self]
      · simp [geocode_fallback, hc, hn, hs, Cache.get?_set_self]

/-- A cached coarse query is answered from the cache, unchanged, with no
network traffic. -/
theorem geocode_fallback_hit (p c : String) (cache : Cache)
    (net : String → NetResult) (j1 j2 : ℚ) (v : PyVal)
    (h : Cache.get? cache (fallback_address p c) = some v) :
    geocode_fallback p c cache net j1 j2 = ⟨v, cache, []⟩ := by
  simp [geocode_fallback, h]

/-- The fallback geocoder issues either no request (cache hit) or exactly one
request, for its coarse query; a request is issued only on a cache miss. -/
theorem geocode_fallback_queries (p c : String) (cache : Cache)
    (net : String → NetResult) (j1 j2 : ℚ) :
    ((geocode_fallback p c cache net j1 j2).queries = [] ∧
        (Cache.get? cache (fallback_address p c)).isSome) ∨
      ((geocode_fallback p c cache net j1 j2).queries = [fallback_address p c] ∧
        Cache.get? cache (fallback_address p c) = Option.none) := by
  cases hc : Cache.get? cache (fallback_address p c) with
  | some v => exact Or.inl (by simp [geocode_fallback, hc])
  | none =>
    refine Or.inr ⟨?_, rfl⟩
    cases hn : net (fallback_address p c) with
    | exc => simp [geocode_fallback, hc, hn]
    | resp status data =>
      by_cases hs : status = 200
      · cases data with
        | nil => simp [geocode_fallback, hc, hn, hs]
        | cons r rest =>
          cases h1 : pyFloat? r.lat <;> cases h2 : pyFloat? r.lon <;>
            simp [geocode_fallback, hc, hn, hs, h1, h2]
      · simp [geocode_fallback, hc, hn, hs]

/-- The JSON round trip of a cache value keeps its coordinates (and its
truthiness) unchanged; only tuple-ness is lost. -/
theorem coordsOf_jsonRoundTripVal (v : PyVal) :
    coordsOf (jsonRoundTripVal v) = coordsOf v := by
  cases v <;> rfl

/-- C3 (counterexample): storing the coordinate tuple (52, 5) under a query
and reloading the cache through its JSON file yields the list [52, 5], which
Python == (and structural equality) distinguishes from the stored tuple, so
the reloaded cache does not map the query to a value equal to the stored one. -/
theorem cache_roundtrip_exact_cex :
    Cache.get?
        (saveLoad (Cache.set []
          "Kerkstraat 12, 1234 AB, Utrecht, Netherlands" (PyVal.tup 52 5)))
        "Kerkstraat 12, 1234 AB, Utrecht, Netherlands"
      = some (PyVal.list 52 5) ∧
    PyVal.list 52 5 ≠ PyVal.tup 52 5 ∧
    pyEq (PyVal.list 52 5) (PyVal.tup 52 5) = false := by
  refine ⟨by decide, by decide, by decide⟩

/-- C3 (amended): putting r under q and looking q up returns r exactly within
a run; after a save/reload cycle the cache still maps q to a value with the
same coordinates and the same null-ness, but a coordinate tuple comes back as
a JSON-array list rather than the original tuple. -/
theorem cache_roundtrip_amended (cache : Cache) (q : String) (r : PyVal) :
    Cache.get? (Cache.set cache q r) q = some r ∧
    Cache.get? (saveLoad (Cache.set cache q r)) q = some (jsonRoundTripVal r) ∧
    coordsOf (jsonRoundTripVal r) = coordsOf r ∧
    (jsonRoundTripVal r = PyVal.none ↔ r = PyVal.none) := by
  refine ⟨Cache.get?_set_self _ _ _, ?_, coordsOf_jsonRoundTripVal r, ?_⟩
  · rw [saveLoad_get?, Cache.get?_set_self]; rfl
  · cases r <;> simp [jsonRoundTripVal]

/-- C4 (counterexample): the claim does not hold for every variant of the
builder. The accurate_geocoding.py variant appends a house number equal to
the literal "nan", and the geocode_batch.py variant appends a house number
that strips to the empty string (leaving a dangling space). -/
theorem builder_variants_append_unfiltered_cex :
    create_full_address_accurate
        ⟨some "Kerkstraat", some "nan", none, none, none, none, none⟩
      = "Kerkstraat nan, Netherlands" ∧
    create_full_address_accurate
        ⟨some "Kerkstraat", none, none, none, none, none, none⟩
      = "Kerkstraat, Netherlands" ∧
    create_full_address_batch
        ⟨some "Kerkstraat", some "  ", none, none, none, none, none⟩
      = "Kerkstraat , Netherlands" := by
  refine ⟨by decide, by decide, by decide⟩

/-- C4 (amended): in the geocode_all_schools.py / geocode_with_fallback.py
variant of the builder, the house number — and then its addition — is
appended to the street component exactly when the field is present and, after
stripping, non-empty and not the literal "nan"; a missing or filtered house
number leaves the street component as the stripped street alone (the
accurate_geocoding.py variant performs no such filtering and the
geocode_batch.py variant filters only "nan"). -/
theorem house_filter_all_schools_variant (r : Row) (st : String)
    (hst : r.street = some st) :
    ((r.house_no = none ∨
        ∃ hn, r.house_no = some hn ∧ (pyStrip hn = "" ∨ pyStrip hn = "nan")) →
      full_address_parts r
        = pyStrip st :: full_address_parts { r with street := none }) ∧
    (∀ hn, r.house_no = some hn → pyStrip hn ≠ "" → pyStrip hn ≠ "nan" →
      ((r.house_add = none ∨
          ∃ ha, r.house_add = some ha ∧ (pyStrip ha = "" ∨ pyStrip ha = "nan")) →
        full_address_parts r
          = (pyStrip st ++ " " ++ pyStrip hn)
              :: full_address_parts { r with street := none }) ∧
      (∀ ha, r.house_add = some ha → pyStrip ha ≠ "" → pyStrip ha ≠ "nan" →
        full_address_parts r
          = (pyStrip st ++ " " ++ pyStrip hn ++ pyStrip ha)
              :: full_address_parts { r with street := none })) := by
  obtain ⟨street, house_no, house_add, postcode, city, la, lo⟩ := r
  cases hst
  constructor
  · rintro (h | ⟨hn, rfl, h⟩)
    · cases h
      simp [full_address_parts]
    · rcases h with h | h <;> simp [full_address_parts, h]
  · rintro hn rfl h1 h2
    constructor
    · rintro (h | ⟨ha, rfl, h⟩)
      · cases h
        simp [full_address_parts, h1, h2]
      · rcases h with h | h <;> simp [full_address_parts, h1, h2, h]
    · rintro ha rfl h3 h4
      simp [full_address_parts, h1, h2, h3, h4, String.append_assoc]

/-- Witness for house_filter_all_schools_variant at a concrete record. -/
theorem house_filter_all_schools_variant_witness :
    full_address_parts
        ⟨some "Kerkstraat", some "12", none, some "1234 AB", some "Utrecht", none, none⟩
      = (pyStrip "Kerkstraat" ++ " " ++ pyStrip "12")
          :: full_address_parts
            ⟨none, some "12", none, some "1234 AB", some "Utrecht", none, none⟩ :=
  (((house_filter_all_schools_variant
      ⟨some "Kerkstraat", some "12", none, some "1234 AB", some "Utrecht", none, none⟩
      "Kerkstraat" rfl).2 "12" rfl (by decide) (by decide)).1 (Or.inl rfl))

/-- C8: the worked examples of the spec: a record with street "Kerkstraat",
house number "12", no addition, postcode "1234 AB" and city "Utrecht" yields
exactly "Kerkstraat 12, 1234 AB, Utrecht, Netherlands", and the same record
with the house number missing yields exactly
"Kerkstraat, 1234 AB, Utrecht, Netherlands". -/
theorem create_full_address_examples :
    create_full_address
        ⟨some "Kerkstraat", some "12", none, some "1234 AB", some "Utrecht", none, none⟩
      = "Kerkstraat 12, 1234 AB, Utrecht, Netherlands" ∧
    create_full_address
        ⟨some "Kerkstraat", none, none, some "1234 AB", some "Utrecht", none, none⟩
      = "Kerkstraat, 1234 AB, Utrecht, Netherlands" := by
  refine ⟨by decide, by decide⟩

/-- C9: the address builder is a pure function of the record: equal records
give equal strings, and the string does not depend on the coordinate columns,
so it is a stable cache key. -/
theorem create_full_address_deterministic (r r2 : Row) (x y : Option ℚ) :
    (r = r2 → create_full_address r = create_full_address r2) ∧
    create_full_address { r with latitude := x, longitude := y }
      = create_full_address r := by
  constructor
  · intro h; rw [h]
  · obtain ⟨street, house_no, house_add, postcode, city, la, lo⟩ := r
    rfl

/-- Witness for create_full_address_deterministic at a concrete record. -/
theorem create_full_address_deterministic_witness :
    create_full_address
        ⟨some "Kerkstraat", some "12", none, some "1234 AB", some "Utrecht", none, none⟩
      = create_full_address
        ⟨some "Kerkstraat", some "12", none, some "1234 AB", some "Utrecht", none, none⟩ :=
  (create_full_address_deterministic
      ⟨some "Kerkstraat", some "12", none, some "1234 AB", some "Utrecht", none, none⟩
      ⟨some "Kerkstraat", some "12", none, some "1234 AB", some "Utrecht", none, none⟩
      none none).1 rfl

/-- C10: because geocode_fallback stores the already-jittered coordinates
under the coarse query, a second lookup of the same postcode and city — in
the same run, or in a later run through the persisted cache file — is a cache
hit that returns the first call's result with no network call: within a run
the value is exactly equal, and across a save/reload cycle its coordinates
are exactly equal (the tuple returns as a list). -/
theorem fallback_shared_coarse_query (p c : String) (cache : Cache)
    (net : String → NetResult) (j1 j2 j3 j4 : ℚ) :
    geocode_fallback p c (geocode_fallback p c cache net j1 j2).cache net j3 j4
      = ⟨(geocode_fallback p c cache net j1 j2).result,
         (geocode_fallback p c cache net j1 j2).cache, []⟩ ∧
    geocode_fallback p c (saveLoad (geocode_fallback p c cache net j1 j2).cache)
        net j3 j4
      = ⟨jsonRoundTripVal (geocode_fallback p c cache net j1 j2).result,
         saveLoad (geocode_fallback p c cache net j1 j2).cache, []⟩ ∧
    coordsOf (jsonRoundTripVal (geocode_fallback p c cache net j1 j2).result)
      = coordsOf (geocode_fallback p c cache net j1 j2).result := by
  refine ⟨geocode_fallback_hit _ _ _ _ _ _ _
      (geocode_fallback_result_cached p c cache net j1 j2), ?_, ?_⟩
  · refine geocode_fallback_hit _ _ _ _ _ _ _ ?_
    rw [saveLoad_get?, geocode_fallback_result_cached p c cache net j1 j2]
    rfl
  · exact coordsOf_jsonRoundTripVal _

/-- C1: a query already present in the cache — whether mapped to coordinates
or to the explicit None failure marker — is answered from the cache with no
network call and no cache change, for both geocode_with_nominatim and
geocode_fallback (on its coarse query); any call that does reach the network
leaves the query as a cache key, and every call issues at most one request,
for the queried string itself, and only on a cache miss — so at most one
network call is ever made per unique query string per run. -/
theorem geocode_at_most_once_per_query (a p c : String) (cache : Cache)
    (net : String → NetResult) (j1 j2 : ℚ) :
    (∀ v, Cache.get? cache a = some v →
      geocode_with_nominatim a cache net = ⟨v, cache, []⟩) ∧
    (Cache.get? (geocode_with_nominatim a cache net).cache a).isSome ∧
    ((geocode_with_nominatim a cache net).queries = [] ∨
      ((geocode_with_nominatim a cache net).queries = [a] ∧
        Cache.get? cache a = Option.none)) ∧
    (∀ v, Cache.get? cache (fallback_address p c) = some v →
      geocode_fallback p c cache net j1 j2 = ⟨v, cache, []⟩) ∧
    (Cache.get? (geocode_fallback p c cache net j1 j2).cache
        (fallback_address p c)).isSome ∧
    ((geocode_fallback p c cache net j1 j2).queries = [] ∨
      ((geocode_fallback p c cache net j1 j2).queries = [fallback_address p c] ∧
        Cache.get? cache (fallback_address p c) = Option.none)) := by
  refine ⟨fun v hv => geocode_hit a cache net v hv,
          geocode_mem_after a cache net, ?_,
          fun v hv => geocode_fallback_hit p c cache net j1 j2 v hv, ?_, ?_⟩
  · rcases geocode_queries a cache net with ⟨h, _⟩ | h
    · exact Or.inl h
    · exact Or.inr h
  · rw [geocode_fallback_result_cached p c cache net j1 j2]
    rfl
  · rcases geocode_fallback_queries p c cache net j1 j2 with ⟨h, _⟩ | h
    · exact Or.inl h
    · exact Or.inr h

/-- Witness for geocode_at_most_once_per_query: a cached failed address and a
cached successful coarse query are both answered from the cache even when the
network oracle would fail. -/
theorem geocode_at_most_once_per_query_witness :
    geocode_with_nominatim "Kerkstraat 12, 1234 AB, Utrecht, Netherlands"
        [("Kerkstraat 12, 1234 AB, Utrecht, Netherlands", PyVal.none)]
        (fun _ => NetResult.exc)
      = ⟨PyVal.none,
         [("Kerkstraat 12, 1234 AB, Utrecht, Netherlands", PyVal.none)], []⟩ ∧
    geocode_fallback "1234 AB" "Utrecht"
        [("1234 AB, Utrecht, Netherlands", PyVal.tup 52 5)]
        (fun _ => NetResult.exc) 0 0
      = ⟨PyVal.tup 52 5,
         [("1234 AB, Utrecht, Netherlands", PyVal.tup 52 5)], []⟩ :=
  ⟨(geocode_at_most_once_per_query
      "Kerkstraat 12, 1234 AB, Utrecht, Netherlands" "1234 AB" "Utrecht"
      [("Kerkstraat 12, 1234 AB, Utrecht, Netherlands", PyVal.none)]
      (fun _ => NetResult.exc) 0 0).1 PyVal.none (by decide),
   (geocode_at_most_once_per_query
      "Kerkstraat 12, 1234 AB, Utrecht, Netherlands" "1234 AB" "Utrecht"
      [("1234 AB, Utrecht, Netherlands", PyVal.tup 52 5)]
      (fun _ => NetResult.exc) 0 0).2.2.2.1 (PyVal.tup 52 5) (by decide)⟩

/-- C2: on a cache miss, geocode_with_nominatim is total on every outcome of
the HTTP interaction — raised exception, non-200 status, empty result array,
or first result whose lat or lon does not parse as a float — returning the
normal negative result None (and caching it) rather than propagating an
error; and on a 200 response with at least one parseable result it returns
the first result's lat and lon as numbers. -/
theorem geocode_with_nominatim_outcomes (a : String) (cache : Cache)
    (net : String → NetResult) (hmiss : Cache.get? cache a = Option.none) :
    (net a = NetResult.exc →
      geocode_with_nominatim a cache net
        = ⟨PyVal.none, Cache.set cache a PyVal.none, [a]⟩) ∧
    (∀ status data, net a = NetResult.resp status data → status ≠ 200 →
      geocode_with_nominatim a cache net
        = ⟨PyVal.none, Cache.set cache a PyVal.none, [a]⟩) ∧
    (net a = NetResult.resp 200 [] →
      geocode_with_nominatim a cache net
        = ⟨PyVal.none, Cache.set cache a PyVal.none, [a]⟩) ∧
    (∀ nr rest, net a = NetResult.resp 200 (nr :: rest) →
      pyFloat? nr.lat = Option.none ∨ pyFloat? nr.lon = Option.none →
      geocode_with_nominatim a cache net
        = ⟨PyVal.none, Cache.set cache a PyVal.none, [a]⟩) ∧
    (∀ nr rest la lo, net a = NetResult.resp 200 (nr :: rest) →
      pyFloat? nr.lat = some la → pyFloat? nr.lon = some lo →
      geocode_with_nominatim a cache net
        = ⟨PyVal.tup la lo, Cache.set cache a (PyVal.tup la lo), [a]⟩) := by
  refine ⟨?_, ?_, ?_, ?_, ?_⟩
  · intro hn
    simp [geocode_with_nominatim, hmiss, hn]
  · intro status data hn hs
    cases data with
    | nil => simp [geocode_with_nominatim, hmiss, hn, hs]
    | cons nr rest =>
      cases h1 : pyFloat? nr.lat <;> cases h2 : pyFloat? nr.lon <;>
        simp [geocode_with_nominatim, hmiss, hn, hs, h1, h2]
  · intro hn
    simp [geocode_with_nominatim, hmiss, hn]
  · rintro nr rest hn (h1 | h2)
    · cases h2 : pyFloat? nr.lon <;>
        simp [geocode_with_nominatim, hmiss, hn, h1, h2]
    · cases h1 : pyFloat? nr.lat <;>
        simp [geocode_with_nominatim, hmiss, hn, h1, h2]
  · intro nr rest la lo hn h1 h2
    simp [geocode_with_nominatim, hmiss, hn, h1, h2]

/-- Witness for geocode_with_nominatim_outcomes: a 200 response whose first
result parses yields the parsed coordinate pair. -/
theorem geocode_with_nominatim_outcomes_witness :
    geocode_with_nominatim "Kerkstraat 12, 1234 AB, Utrecht, Netherlands" []
        (fun _ => NetResult.resp 200 [⟨"52", "5"⟩])
      = ⟨PyVal.tup 52 5,
         Cache.set [] "Kerkstraat 12, 1234 AB, Utrecht, Netherlands"
           (PyVal.tup 52 5),
         ["Kerkstraat 12, 1234 AB, Utrecht, Netherlands"]⟩ :=
  (geocode_with_nominatim_outcomes
      "Kerkstraat 12, 1234 AB, Utrecht, Netherlands" []
      (fun _ => NetResult.resp 200 [⟨"52", "5"⟩]) rfl).2.2.2.2
    ⟨"52", "5"⟩ [] 52 5 rfl (by decide) (by decide)

/-- A row whose stripped postcode or city is empty is skipped by
process_failed_schools: no fallback attempt, no cache change, no network
call. -/
theorem processFailedRow_skip (net : String → NetResult) (j1 j2 : ℚ)
    (r : Row) (cache : Cache)
    (h : rowPostcodeStr r = "" ∨ rowCityStr r = "") :
    processFailedRow net j1 j2 r cache = (r, cache, []) := by
  rcases h with h | h <;> simp [processFailedRow, h]

/-- C5: fallback geocoding is attempted for a record only when both its
stripped postcode and stripped city are non-empty (a NaN cell strips to the
empty string); the query sent on a cache miss is exactly
"{postcode}, {city}, Netherlands"; and on a fresh success the returned
coordinates are the API coordinates plus the two jitter draws, hence within
0.002 degrees of the un-jittered coordinates on each axis whenever the draws
lie in [-0.002, 0.002]. -/
theorem fallback_condition_query_jitter (r : Row) (net : String → NetResult)
    (j1 j2 : ℚ) (cache : Cache) (p c : String) (nr : NomResult)
    (rest : List NomResult) (la lo : ℚ) :
    (rowPostcodeStr r = "" ∨ rowCityStr r = "" →
      processFailedRow net j1 j2 r cache = (r, cache, [])) ∧
    (Cache.get? cache (fallback_address p c) = Option.none →
      net (fallback_address p c) = NetResult.resp 200 (nr :: rest) →
      pyFloat? nr.lat = some la → pyFloat? nr.lon = some lo →
      (geocode_fallback p c cache net j1 j2).queries
          = [p ++ ", " ++ c ++ ", Netherlands"] ∧
      (geocode_fallback p c cache net j1 j2).result
          = PyVal.tup (la + j1) (lo + j2) ∧
      (|j1| ≤ 1/500 → |j2| ≤ 1/500 →
        ∃ rla rlo,
          coordsOf (geocode_fallback p c cache net j1 j2).result
            = some (rla, rlo) ∧
          |rla - la| ≤ 1/500 ∧ |rlo - lo| ≤ 1/500)) := by
  refine ⟨processFailedRow_skip net j1 j2 r cache, ?_⟩
  intro hm hn h1 h2
  have hq : (geocode_fallback p c cache net j1 j2).queries
      = [fallback_address p c] := by
    simp [geocode_fallback, hm, hn, h1, h2]
  refine ⟨by rw [hq]; rfl, ?_, ?_⟩
  · simp [geocode_fallback, hm, hn, h1, h2]
  · intro hj1 hj2
    refine ⟨la + j1, lo + j2, ?_, ?_, ?_⟩
    · simp [geocode_fallback, hm, hn, h1, h2, coordsOf]
    · rwa [add_sub_cancel_left]
    · rwa [add_sub_cancel_left]

/-- Witness for fallback_condition_query_jitter: a record with a NaN postcode
is skipped, and a fresh coarse lookup at (52, 5) with jitter (1/1000, 1/1000)
returns coordinates within 1/500 of (52, 5). -/
theorem fallback_condition_query_jitter_witness :
    processFailedRow (fun _ => NetResult.exc) (1/1000) (1/1000)
        ⟨some "Kerkstraat", some "12", none, none, some "Utrecht", none, none⟩ []
      = (⟨some "Kerkstraat", some "12", none, none, some "Utrecht", none, none⟩,
         [], []) ∧
    (geocode_fallback "1234 AB" "Utrecht" []
        (fun _ => NetResult.resp 200 [⟨"52", "5"⟩]) (1/1000) (1/1000)).queries
      = ["1234 AB" ++ ", " ++ "Utrecht" ++ ", Netherlands"] ∧
    ∃ rla rlo,
      coordsOf (geocode_fallback "1234 AB" "Utrecht" []
          (fun _ => NetResult.resp 200 [⟨"52", "5"⟩]) (1/1000) (1/1000)).result
        = some (rla, rlo) ∧
      |rla - 52| ≤ 1/500 ∧ |rlo - 5| ≤ 1/500 :=
  ⟨(fallback_condition_query_jitter
      ⟨some "Kerkstraat", some "12", none, none, some "Utrecht", none, none⟩
      (fun _ => NetResult.exc) (1/1000) (1/1000) [] "1234 AB" "Utrecht"
      ⟨"52", "5"⟩ [] 52 5).1 (Or.inl (by decide)),
   ((fallback_condition_query_jitter
      ⟨some "Kerkstraat", some "12", none, none, some "Utrecht", none, none⟩
      (fun _ => NetResult.resp 200 [⟨"52", "5"⟩]) (1/1000) (1/1000) []
      "1234 AB" "Utrecht" ⟨"52", "5"⟩ [] 52 5).2 rfl rfl (by decide)
      (by decide)).1,
   ((fallback_condition_query_jitter
      ⟨some "Kerkstraat", some "12", none, none, some "Utrecht", none, none⟩
      (fun _ => NetResult.resp 200 [⟨"52", "5"⟩]) (1/1000) (1/1000) []
      "1234 AB" "Utrecht" ⟨"52", "5"⟩ [] 52 5).2 rfl rfl (by decide)
      (by decide)).2.2
        (by rw [abs_of_pos (by norm_num : (0:ℚ) < 1/1000)]; norm_num)
        (by rw [abs_of_pos (by norm_num : (0:ℚ) < 1/1000)]; norm_num)⟩

/-- The per-record loop skips a row that already has both coordinates: no
geocoding attempt, no cache change, no network call. -/
theorem processRow_resolved (net : String → NetResult) (r : Row)
    (cache : Cache) (hla : r.latitude.isSome) (hlo : r.longitude.isSome) :
    processRow net r cache = (r, cache, []) := by
  obtain ⟨la, hla⟩ := Option.isSome_iff_exists.mp hla
  obtain ⟨lo, hlo⟩ := Option.isSome_iff_exists.mp hlo
  simp [processRow, hla, hlo]

/-- Positional correspondence of the merge loop: when both the dataset and
the existing output file have an i-th row, the merged i-th row is mergeRow of
the two. -/
theorem merge_existing_get? (df : List Row) :
    ∀ (ex : List Row) (i : ℕ) (r e : Row), df[i]? = some r → ex[i]? = some e →
      (merge_existing df ex)[i]? = some (mergeRow r e) := by
  induction df with
  | nil => intro ex i r e hr; simp at hr
  | cons r0 rest ih =>
    intro ex i r e hr he
    cases ex with
    | nil => simp at he
    | cons e0 es =>
      cases i with
      | zero =>
        simp at hr he
        simp [merge_existing, hr, he]
      | succ i =>
        simp at hr he
        simpa [merge_existing] using ih es i r e hr he

/-- The geocoding loop never changes a row that enters it with both
coordinates present. -/
theorem geocode_loop_preserves_resolved (net : String → NetResult)
    (rows : List Row) :
    ∀ (cache : Cache) (i : ℕ) (r : Row), rows[i]? = some r →
      r.latitude.isSome → r.longitude.isSome →
      (geocode_loop net rows cache).1[i]? = some r := by
  induction rows with
  | nil => intro cache i r hr; simp at hr
  | cons r0 rest ih =>
    intro cache i r hr hla hlo
    cases i with
    | zero =>
      simp at hr
      subst hr
      simp [geocode_loop, processRow_resolved net r0 cache hla hlo]
    | succ i =>
      simp at hr
      simpa [geocode_loop] using
        ih (processRow net r0 cache).2.1 i r hr hla hlo

/-- C6: in a resumed run, a record marked resolved in the checkpointed output
file gets exactly those coordinates in the merge step, and the per-record
loop leaves every merged-resolved record unchanged — no geocoding attempt, no
cache change and no network call is made for it, since the loop only
processes records whose latitude or longitude is missing after the merge. -/
theorem resumed_run_preserves_resolved (net : String → NetResult)
    (df ex : List Row) (cache : Cache) (i : ℕ) (r e : Row) :
    (df[i]? = some r → ex[i]? = some e →
      e.latitude.isSome → e.longitude.isSome →
      (merge_existing df ex)[i]?
        = some { r with latitude := e.latitude, longitude := e.longitude }) ∧
    ((merge_existing df ex)[i]? = some r →
      r.latitude.isSome → r.longitude.isSome →
      (geocode_loop net (merge_existing df ex) cache).1[i]? = some r ∧
      processRow net r cache = (r, cache, [])) := by
  constructor
  · intro hr he hla hlo
    have := merge_existing_get? df ex i r e hr he
    rwa [mergeRow, if_pos (by simp [hla, hlo])] at this
  · intro hr hla hlo
    exact ⟨geocode_loop_preserves_resolved net (merge_existing df ex) cache i r
        hr hla hlo,
      processRow_resolved net r cache hla hlo⟩

/-- Witness for resumed_run_preserves_resolved: a one-row dataset whose
checkpoint file carries coordinates (52, 5) keeps them through the loop even
when the network oracle would fail. -/
theorem resumed_run_preserves_resolved_witness :
    (merge_existing
        [⟨some "Kerkstraat", some "12", none, some "1234 AB", some "Utrecht",
          none, none⟩]
        [⟨some "Kerkstraat", some "12", none, some "1234 AB", some "Utrecht",
          some 52, some 5⟩])[0]?
      = some ⟨some "Kerkstraat", some "12", none, some "1234 AB",
          some "Utrecht", some 52, some 5⟩ ∧
    (geocode_loop (fun _ => NetResult.exc)
        (merge_existing
          [⟨some "Kerkstraat", some "12", none, some "1234 AB", some "Utrecht",
            none, none⟩]
          [⟨some "Kerkstraat", some "12", none, some "1234 AB", some "Utrecht",
            some 52, some 5⟩]) []).1[0]?
      = some ⟨some "Kerkstraat", some "12", none, some "1234 AB",
          some "Utrecht", some 52, some 5⟩ :=
  ⟨(resumed_run_preserves_resolved (fun _ => NetResult.exc)
      [⟨some "Kerkstraat", some "12", none, some "1234 AB", some "Utrecht",
        none, none⟩]
      [⟨some "Kerkstraat", some "12", none, some "1234 AB", some "Utrecht",
        some 52, some 5⟩] [] 0
      ⟨some "Kerkstraat", some "12", none, some "1234 AB", some "Utrecht",
        none, none⟩
      ⟨some "Kerkstraat", some "12", none, some "1234 AB", some "Utrecht",
        some 52, some 5⟩).1 rfl rfl (by decide) (by decide),
   ((resumed_run_preserves_resolved (fun _ => NetResult.exc)
      [⟨some "Kerkstraat", some "12", none, some "1234 AB", some "Utrecht",
        none, none⟩]
      [⟨some "Kerkstraat", some "12", none, some "1234 AB", some "Utrecht",
        some 52, some 5⟩] [] 0
      ⟨some "Kerkstraat", some "12", none, some "1234 AB", some "Utrecht",
        some 52, some 5⟩
      ⟨some "Kerkstraat", some "12", none, some "1234 AB", some "Utrecht",
        some 52, some 5⟩).2 (by decide) (by decide) (by decide)).1⟩

/-- A string containing a space is neither empty nor the literal "nan". -/
theorem ne_empty_nan_of_space (s : String) (hmem : ' ' ∈ s.data) :
    s ≠ "" ∧ s ≠ "nan" := by
  constructor <;> rintro rfl <;> revert hmem <;> decide

/-- Appending through a space keeps a space in the string. -/
theorem space_mem_append (x y : String) : ' ' ∈ (x ++ " " ++ y).data := by
  have h1 : (" " : String).data = [' '] := rfl
  simp [String.data_append, h1]

/-- A space survives a further append on the right. -/
theorem space_mem_append_right (x y : String) (h : ' ' ∈ x.data) :
    ' ' ∈ (x ++ y).data := by
  simp [String.data_append]
  exact Or.inl h

/-- Every component the builder emits is the literal "Netherlands", a
stripped postcode, a stripped city, or a street component that is either the
stripped street alone or the stripped street extended through a space. -/
theorem full_address_parts_shape (r : Row) (part : String)
    (hmem : part ∈ full_address_parts r) :
    part = "Netherlands" ∨
    (∃ s, r.postcode = some s ∧ part = pyStrip s) ∨
    (∃ s, r.city = some s ∧ part = pyStrip s) ∨
    (∃ s, r.street = some s ∧
      (part = pyStrip s ∨ ∃ x, part = pyStrip s ++ " " ++ x)) := by
  obtain ⟨street, house_no, house_add, postcode, city, la, lo⟩ := r
  cases street with
  | none =>
    cases postcode <;> cases city <;>
      simp_all [full_address_parts] <;> tauto
  | some s =>
    have hstreet :
        part ∈ (full_address_parts
            ⟨some s, house_no, house_add, postcode, city, la, lo⟩) := hmem
    simp only [full_address_parts, List.append_assoc, List.mem_append,
      List.mem_cons, List.mem_singleton, List.not_mem_nil] at hstreet
    rcases hstreet with h | h
    · -- the street component
      refine Or.inr (Or.inr (Or.inr ⟨s, rfl, ?_⟩))
      rcases h with h | h
      · cases house_no with
        | none => exact Or.inl h
        | some hn =>
          simp only at h
          by_cases h1 : pyStrip hn ≠ "nan" && pyStrip hn ≠ ""
          · rw [if_pos h1] at h
            cases house_add with
            | none => exact Or.inr ⟨pyStrip hn, h⟩
            | some ha =>
              simp only at h
              by_cases h2 : pyStrip ha ≠ "nan" && pyStrip ha ≠ ""
              · rw [if_pos h2] at h
                exact Or.inr ⟨pyStrip hn ++ pyStrip ha,
                  by rw [h, String.append_assoc]⟩
              · rw [if_neg h2] at h
                exact Or.inr ⟨pyStrip hn, h⟩
          · rw [if_neg h1] at h
            exact Or.inl h
      · cases h
    · -- postcode, city, Netherlands
      cases postcode <;> cases city <;> simp_all <;> tauto

/-- C7 (counterexample): a record whose postcode cell holds the string "nan"
(the upstream NaN-to-string artifact) and whose city is "Utrecht" produces
the address "nan, Utrecht, Netherlands": the component between the
separators is exactly the NaN-derived string, and a record with a blank
postcode likewise produces an empty component. -/
theorem address_builder_nan_component_cex :
    full_address_parts ⟨none, none, none, some "nan", some "Utrecht", none, none⟩
      = ["nan", "Utrecht", "Netherlands"] ∧
    "nan" ∈ full_address_parts
      ⟨none, none, none, some "nan", some "Utrecht", none, none⟩ ∧
    create_full_address ⟨none, none, none, some "nan", some "Utrecht", none, none⟩
      = "nan, Utrecht, Netherlands" ∧
    full_address_parts ⟨none, none, none, some "  ", some "Utrecht", none, none⟩
      = ["", "Utrecht", "Netherlands"] := by
  refine ⟨by decide, by decide, by decide, by decide⟩

/-- C7 (amended): for every record, the parts list is never empty and always
ends with the literal "Netherlands"; and provided every present street,
postcode and city cell strips to a value that is neither empty nor the
literal "nan" (the code does not filter these fields itself), every component
is non-empty and not "nan". -/
theorem address_builder_components (r : Row) :
    full_address_parts r ≠ [] ∧
    (full_address_parts r).getLast? = some "Netherlands" ∧
    ((∀ s, r.street = some s → pyStrip s ≠ "" ∧ pyStrip s ≠ "nan") →
      (∀ s, r.postcode = some s → pyStrip s ≠ "" ∧ pyStrip s ≠ "nan") →
      (∀ s, r.city = some s → pyStrip s ≠ "" ∧ pyStrip s ≠ "nan") →
      ∀ part ∈ full_address_parts r, part ≠ "" ∧ part ≠ "nan") := by
  refine ⟨?_, ?_, ?_⟩
  · obtain ⟨street, house_no, house_add, postcode, city, la, lo⟩ := r
    cases street <;> cases postcode <;> cases city <;>
      simp [full_address_parts]
  · show ((_ ++ _ ++ _) ++ ["Netherlands"]).getLast? = some "Netherlands"
    exact List.getLast?_concat _
  · intro hs hp hc part hmem
    rcases full_address_parts_shape r part hmem with h | ⟨s, hf, h⟩ | ⟨s, hf, h⟩
        | ⟨s, hf, h | ⟨x, h⟩⟩
    · subst h; exact ⟨by decide, by decide⟩
    · subst h; exact hp s hf
    · subst h; exact hc s hf
    · subst h; exact hs s hf
    · subst h
      exact ne_empty_nan_of_space _ (space_mem_append (pyStrip s) x)

/-- Witness for address_builder_components at a concrete record. -/
theorem address_builder_components_witness :
    full_address_parts
        ⟨some "Kerkstraat", some "12", none, some "1234 AB", some "Utrecht",
          none, none⟩ ≠ [] ∧
    (full_address_parts
        ⟨some "Kerkstraat", some "12", none, some "1234 AB", some "Utrecht",
          none, none⟩).getLast? = some "Netherlands" ∧
    ∀ part ∈ full_address_parts
        ⟨some "Kerkstraat", some "12", none, some "1234 AB", some "Utrecht",
          none, none⟩, part ≠ "" ∧ part ≠ "nan" :=
  ⟨(address_builder_components
      ⟨some "Kerkstraat", some "12", none, some "1234 AB", some "Utrecht",
        none, none⟩).1,
   (address_builder_components
      ⟨some "Kerkstraat", some "12", none, some "1234 AB", some "Utrecht",
        none, none⟩).2.1,
   (address_builder_components
      ⟨some "Kerkstraat", some "12", none, some "1234 AB", some "Utrecht",
        none, none⟩).2.2
     (fun s h => by injection h with h; subst h; exact ⟨by decide, by decide⟩)
     (fun s h => by injection h with h; subst h; exact ⟨by decide, by decide⟩)
     (fun s h => by injection h with h; subst h; exact ⟨by decide, by decide⟩)⟩
